import Mathlib

/-!
Shallow embedding of the Express-Zod-Api boilerplate repository:
the safe-execution helpers, the users endpoints' input schemas and
handlers, the environment configuration schema, the environment
selection, and the routing table with its resolution contract.

JavaScript strings are modelled as Lean strings, JavaScript numbers
produced by parseInt as `Option Int` (`none` standing for NaN).
-/

namespace EZA

/-- A JavaScript number as produced by parseInt: `none` stands for NaN. -/
abbrev JsNum := Option Int

/-- The whitespace characters removed by String.prototype.trim
(restricted to the ASCII forms; the Unicode space forms do not occur
in the claims' inputs). -/
def isJsWhitespace (c : Char) : Bool :=
  c = ' ' || c = '\t' || c = '\n' || c = '\r' || c = '\x0b' || c = '\x0c'

/-- String.prototype.trim on the character list. -/
def jsTrimList (cs : List Char) : List Char :=
  ((cs.dropWhile isJsWhitespace).reverse.dropWhile isJsWhitespace).reverse

/-- String.prototype.trim, the transform applied by `z.string().trim()`. -/
def jsTrim (s : String) : String :=
  String.mk (jsTrimList s.data)

/-- The test performed by the unanchored regular expression /\d+/ via
RegExp.prototype.test: it succeeds iff the string contains at least one
decimal digit anywhere. -/
def testDigitRegex (s : String) : Bool :=
  s.data.any Char.isDigit

/-- Value of a nonempty list of decimal digits. -/
def digitsPrefixVal (cs : List Char) : Option Nat :=
  let ds := cs.takeWhile Char.isDigit
  if ds.isEmpty then none
  else some (ds.foldl (fun a c => 10 * a + (c.toNat - 48)) 0)

/-- parseInt(s, 10): skip leading whitespace, read an optional sign, then
the longest prefix of decimal digits; NaN (`none`) if that prefix is
empty. Later non-digit characters are discarded (truncation). Modelled
with arbitrary-precision integers. -/
def parseIntJs (s : String) : Option Int :=
  match s.data.dropWhile isJsWhitespace with
  | '-' :: rest => (digitsPrefixVal rest).map (fun n => -(n : Int))
  | '+' :: rest => (digitsPrefixVal rest).map (fun n => (n : Int))
  | rest => (digitsPrefixVal rest).map (fun n => (n : Int))

/-- A validation failure of an input schema, carrying the failing field
(the 400-class ValidationError of the pipeline). -/
structure ValidationError where
  field : String
deriving DecidableEq, Repr

/-- An HTTP error raised by a handler via createHttpError(status, message). -/
structure HttpError where
  statusCode : Nat
  message : String
deriving DecidableEq, Repr

/-- The SafeReturn interface declared in the repository's utils
instructions: `interface SafeReturn<T> \x7b ok: boolean; data: T | string \x7d`.
The `data` field holds the value on the ok branch and the error message
string on the failure branch. -/
structure SafeReturn (T : Type) where
  ok : Bool
  data : T ⊕ String
deriving DecidableEq, Repr

/-- Modelled from the spec: the body of `safe` is not under src (only its
declared SafeReturn interface and its callers are). Per the spec contract,
a normal return of fn becomes the ok branch carrying the value and a
thrown error becomes the failure branch carrying a string description;
nothing is re-thrown. A fallible fn is modelled as `Except String T`. -/
def safe {T : Type} (fn : Except String T) : SafeReturn T :=
  match fn with
  | Except.ok v => ⟨true, Sum.inl v⟩
  | Except.error e => ⟨false, Sum.inr e⟩

/-- Modelled from the spec: the asynchronous counterpart of `safe` with the
identical contract; promise resolution/rejection is modelled as `Except`. -/
def safeAsync {T : Type} (fn : Except String T) : SafeReturn T :=
  match fn with
  | Except.ok v => ⟨true, Sum.inl v⟩
  | Except.error e => ⟨false, Sum.inr e⟩

/-- A primitive JavaScript value stored in an object field, for observing
the runtime shape of a returned object. -/
inductive JsPrim where
  | jsBool (b : Bool)
  | jsStr (s : String)
deriving DecidableEq, Repr

/-- The runtime JavaScript object denoted by a SafeReturn over strings, as
its list of (property, value) pairs, following the declared interface
fields `ok` and `data`. -/
def SafeReturn.toObj (r : SafeReturn String) : List (String × JsPrim) :=
  [("ok", JsPrim.jsBool r.ok),
   ("data", JsPrim.jsStr (match r.data with
     | Sum.inl v => v
     | Sum.inr e => e))]

/-- Property lookup on a JavaScript object: `none` when the property is
absent (reads as undefined). -/
def lookupField (o : List (String × JsPrim)) (k : String) : Option JsPrim :=
  (o.find? (fun p => p.fst = k)).map (fun p => p.snd)

/-- The spec's words for the id path parameter: accepted only as a
digit-only string. -/
def digitOnlyStr (s : String) : Bool :=
  !s.data.isEmpty && s.data.all Char.isDigit

/-- The id field of the users endpoints' input schemas:
`z.string().trim().regex(/\d+/).transform((id) => parseInt(id, 10))`.
The raw value is trimmed, tested against the unanchored /\d+/ regex
(rejection is a ValidationError on field id), and on success transformed
by parseInt(_, 10); the transformed value is not re-validated, so it can
be NaN (`none`). -/
def parseIdField (raw : String) : Except ValidationError JsNum :=
  let t := jsTrim raw
  if testDigitRegex t then Except.ok (parseIntJs t)
  else Except.error ⟨"id"⟩

/-- The name field of the update endpoint's input schema:
`z.string().min(1)`. -/
def parseNameField (raw : String) : Except ValidationError String :=
  if 1 ≤ raw.length then Except.ok raw
  else Except.error ⟨"name"⟩

/-- The merged input of updateUserEndpoint: path id plus body name.
Failures are short-circuited left to right (zod reports all issues at
once; only the failure/success split matters here). -/
def parseUpdateInput (rawId rawName : String) :
    Except ValidationError (JsNum × String) :=
  match parseIdField rawId with
  | Except.error e => Except.error e
  | Except.ok id =>
    match parseNameField rawName with
    | Except.error e => Except.error e
    | Except.ok nm => Except.ok (id, nm)

/-- Output schema of getUserEndpoint: an object with a string demoData. -/
structure GetUserOutput where
  demoData : String
deriving DecidableEq, Repr

/-- Output schema of updateUserEndpoint (never produced by its handler). -/
structure UpdateUserOutput where
  name : String
  createdAt : String
deriving DecidableEq, Repr

/-- Template-literal stringification of the data field of a SafeReturn
over Unit: on the failure branch this is the error message. -/
def dataString (d : Unit ⊕ String) : String :=
  match d with
  | Sum.inl _ => "undefined"
  | Sum.inr e => e

/-- JavaScript comparison id > bound for a possibly-NaN id: NaN compares
false. -/
def jsGt (id : JsNum) (bound : Int) : Bool :=
  match id with
  | none => false
  | some n => bound < n

/-- Template-literal stringification of the id. -/
def jsNumToString (id : JsNum) : String :=
  match id with
  | none => "NaN"
  | some n => toString n

/-- The handler of getUserEndpoint. The wrapped optional operation
exampleWithRandomThrow is a parameter (its outcome `Except String Unit`);
the handler wraps it with safeAsync, so its fault never escapes. The
middleware-provided method and the logger only feed logger.debug and do
not affect the result. -/
def getUserHandler (id : JsNum) (exampleFn : Except String Unit) :
    Except HttpError GetUserOutput :=
  if jsGt id 100 then Except.error ⟨404, "User not found"⟩
  else
    let exampleFnResult := safeAsync exampleFn
    if exampleFnResult.ok = false then
      Except.ok ⟨"Querying User " ++ jsNumToString id ++ " failed safely: "
        ++ dataString exampleFnResult.data⟩
    else
      Except.ok ⟨"Querying User " ++ jsNumToString id ++ " succeed!"⟩

/-- The handler of updateUserEndpoint: 404 above the 100 threshold,
otherwise always createHttpError(500, "Not implemented yet!"); it never
returns a success value. -/
def updateUserHandler (id : JsNum) (name : String) :
    Except HttpError UpdateUserOutput :=
  if jsGt id 100 then Except.error ⟨404, "User not found"⟩
  else
    let _ := name
    Except.error ⟨500, "Not implemented yet!"⟩

/-- Outcome of the per-request pipeline of one endpoint: a success
response with its status code and typed body, a 400 ValidationError from
the input schema, or an error envelope from an HttpError. -/
inductive EndpointResult (α : Type) where
  | success (status : Nat) (body : α)
  | validationError (field : String)
  | httpError (status : Nat) (message : String)
deriving DecidableEq, Repr

/-- HTTP status of a pipeline outcome: validation failures are 400. -/
def statusOf {α : Type} (r : EndpointResult α) : Nat :=
  match r with
  | EndpointResult.success st _ => st
  | EndpointResult.validationError _ => 400
  | EndpointResult.httpError st _ => st

/-- Modelled from the spec: the pipeline boundary converts a handler
success into a 200 response and a raised HttpError into the error
envelope. -/
def resultOfHandler {α : Type} (r : Except HttpError α) : EndpointResult α :=
  match r with
  | Except.ok v => EndpointResult.success 200 v
  | Except.error e => EndpointResult.httpError e.statusCode e.message

/-- Modelled from the spec: the per-request pipeline of getUserEndpoint
over an arbitrary handler: validate/transform the raw id against the
input schema, stop with a ValidationError on failure (the handler is
never invoked), otherwise run the handler on the transformed value. -/
def processGetUserWith (h : JsNum → Except HttpError GetUserOutput)
    (rawId : String) : EndpointResult GetUserOutput :=
  match parseIdField rawId with
  | Except.error e => EndpointResult.validationError e.field
  | Except.ok id => resultOfHandler (h id)

/-- The pipeline of getUserEndpoint with its actual handler, parametrised
by the outcome of the wrapped optional operation. -/
def processGetUser (rawId : String) (exampleFn : Except String Unit) :
    EndpointResult GetUserOutput :=
  processGetUserWith (fun id => getUserHandler id exampleFn) rawId

/-- Modelled from the spec: the per-request pipeline of updateUserEndpoint
over an arbitrary handler. -/
def processUpdateUserWith
    (h : JsNum → String → Except HttpError UpdateUserOutput)
    (rawId rawName : String) : EndpointResult UpdateUserOutput :=
  match parseUpdateInput rawId rawName with
  | Except.error e => EndpointResult.validationError e.field
  | Except.ok (id, nm) => resultOfHandler (h id nm)

/-- The pipeline of updateUserEndpoint with its actual handler. -/
def processUpdateUser (rawId rawName : String) :
    EndpointResult UpdateUserOutput :=
  processUpdateUserWith updateUserHandler rawId rawName

/-- A configuration parse failure (zod throws; the spec calls this a
ConfigurationError), carrying the failing option. -/
structure ConfigurationError where
  field : String
deriving DecidableEq, Repr

/-- Boolean(s) for a string s: false exactly on the empty string; this
coercion never fails, so z.coerce.boolean accepts every present value. -/
def coerceBoolean (s : String) : Bool :=
  s ≠ ""

/-- A JavaScript number as produced by the Number() coercion: a finite
value, a signed infinity, or NaN. Finite values are modelled as the
exact rational value of the numeric literal; IEEE-754 rounding and
overflow of huge exponents to Infinity are not modelled, and neither can
move an accepted literal into NaN, so the set of inputs on which the
coercion yields NaN is unaffected. -/
inductive JsNumber where
  | finite (q : ℚ)
  | infinite (neg : Bool)
  | nan
deriving DecidableEq, Repr

/-- Value of a decimal digit list, most significant first. -/
def decDigitsVal (cs : List Char) : Nat :=
  cs.foldl (fun a c => 10 * a + (c.toNat - 48)) 0

/-- Hexadecimal digit test for 0x literals. -/
def isHexDigit (c : Char) : Bool :=
  c.isDigit || ('a' ≤ c && c ≤ 'f') || ('A' ≤ c && c ≤ 'F')

/-- Value of a hexadecimal digit. -/
def hexDigitVal (c : Char) : Nat :=
  if c.isDigit then c.toNat - 48
  else if 'a' ≤ c && c ≤ 'f' then c.toNat - 87
  else c.toNat - 55

/-- Octal digit test for 0o literals. -/
def isOctDigit (c : Char) : Bool :=
  '0' ≤ c && c ≤ '7'

/-- Binary digit test for 0b literals. -/
def isBinDigit (c : Char) : Bool :=
  c = '0' || c = '1'

/-- Value of a digit list in the given base. -/
def baseDigitsVal (base : Nat) (val : Char → Nat) (cs : List Char) : Nat :=
  cs.foldl (fun a c => base * a + val c) 0

/-- The exponent part of a decimal literal, after the e/E marker: an
optional sign followed by a nonempty run of digits consuming the whole
remainder; anything else is a syntax error. -/
def parseExponent (cs : List Char) : Option Int :=
  match cs with
  | '-' :: t =>
    if !t.isEmpty && t.all Char.isDigit then some (-(decDigitsVal t : Int))
    else none
  | '+' :: t =>
    if !t.isEmpty && t.all Char.isDigit then some ((decDigitsVal t : Int))
    else none
  | t =>
    if !t.isEmpty && t.all Char.isDigit then some ((decDigitsVal t : Int))
    else none

/-- An unsigned decimal literal of the StringNumericLiteral grammar:
digits, an optional dot with further digits, and an optional exponent,
consuming the whole input, with at least one digit before or after the
dot; its exact rational value. -/
def parseDecimalLit (cs : List Char) : Option ℚ :=
  let p1 := cs.span Char.isDigit
  let p2 :=
    match p1.snd with
    | '.' :: t => t.span Char.isDigit
    | _ => ([], p1.snd)
  if p1.fst.isEmpty && p2.fst.isEmpty then none
  else
    let mant : ℚ := (decDigitsVal p1.fst : ℚ) +
      (decDigitsVal p2.fst : ℚ) / ((10 : ℚ) ^ p2.fst.length)
    match p2.snd with
    | [] => some mant
    | 'e' :: t => (parseExponent t).map (fun ex => mant * (10 : ℚ) ^ ex)
    | 'E' :: t => (parseExponent t).map (fun ex => mant * (10 : ℚ) ^ ex)
    | _ => none

/-- Number(s) for a string s, the coercion performed by
z.coerce.number(): trim; empty becomes 0; an unsigned 0x/0o/0b integer
literal in the respective base; otherwise an optional sign followed by
the literal Infinity or by a decimal literal with optional fraction and
exponent; everything else is NaN. -/
def coerceNumber (s : String) : JsNumber :=
  match jsTrimList s.data with
  | [] => JsNumber.finite 0
  | '0' :: 'x' :: ds =>
    if !ds.isEmpty && ds.all isHexDigit then
      JsNumber.finite ((baseDigitsVal 16 hexDigitVal ds : Nat) : ℚ)
    else JsNumber.nan
  | '0' :: 'X' :: ds =>
    if !ds.isEmpty && ds.all isHexDigit then
      JsNumber.finite ((baseDigitsVal 16 hexDigitVal ds : Nat) : ℚ)
    else JsNumber.nan
  | '0' :: 'o' :: ds =>
    if !ds.isEmpty && ds.all isOctDigit then
      JsNumber.finite ((baseDigitsVal 8 hexDigitVal ds : Nat) : ℚ)
    else JsNumber.nan
  | '0' :: 'O' :: ds =>
    if !ds.isEmpty && ds.all isOctDigit then
      JsNumber.finite ((baseDigitsVal 8 hexDigitVal ds : Nat) : ℚ)
    else JsNumber.nan
  | '0' :: 'b' :: ds =>
    if !ds.isEmpty && ds.all isBinDigit then
      JsNumber.finite ((baseDigitsVal 2 hexDigitVal ds : Nat) : ℚ)
    else JsNumber.nan
  | '0' :: 'B' :: ds =>
    if !ds.isEmpty && ds.all isBinDigit then
      JsNumber.finite ((baseDigitsVal 2 hexDigitVal ds : Nat) : ℚ)
    else JsNumber.nan
  | cs =>
    let sr : Bool × List Char :=
      match cs with
      | '-' :: t => (true, t)
      | '+' :: t => (false, t)
      | t => (false, t)
    if sr.snd = ['I', 'n', 'f', 'i', 'n', 'i', 't', 'y'] then
      JsNumber.infinite sr.fst
    else
      match parseDecimalLit sr.snd with
      | some q => JsNumber.finite (if sr.fst then -q else q)
      | none => JsNumber.nan

/-- The recognized environment options, each possibly absent. zod strips
unrecognized keys of process.env, so only these are modelled. -/
structure RawEnv where
  PORT : Option String
  CORS_ENABLED : Option String
  COMPRESSION_ENABLED : Option String
  UPLOAD_ENABLED : Option String
  LOG_LEVEL : Option String
  LOG_COLORED : Option String
  GENERATE_CLIENT : Option String
  GENERATE_API_DOCS : Option String
  API_VERSION : Option String
  API_TITLE : Option String
  API_SERVER_URL : Option String
deriving DecidableEq, Repr

/-- The fully populated configuration produced by EnvFileSchema. -/
structure EnvConfig where
  PORT : JsNumber
  CORS_ENABLED : Bool
  COMPRESSION_ENABLED : Bool
  UPLOAD_ENABLED : Bool
  LOG_LEVEL : String
  LOG_COLORED : Bool
  GENERATE_CLIENT : Bool
  GENERATE_API_DOCS : Bool
  API_VERSION : String
  API_TITLE : String
  API_SERVER_URL : String
deriving DecidableEq, Repr

/-- The LOG_LEVEL enum members: z.enum(["silent", "warn", "debug"]). -/
def logLevels : List String := ["silent", "warn", "debug"]

/-- PORT: z.coerce.number().default(8090). Absent falls back to 8090;
present is coerced by Number and rejected exactly when that yields NaN
(z.number() type-checks typeof number, under which NaN is its own parsed
type; Infinity passes, the finite check being opt-in). -/
def parsePort (v : Option String) : Except ConfigurationError JsNumber :=
  match v with
  | none => Except.ok (JsNumber.finite 8090)
  | some s =>
    match coerceNumber s with
    | JsNumber.nan => Except.error ⟨"PORT"⟩
    | n => Except.ok n

/-- LOG_LEVEL: z.enum(["silent", "warn", "debug"]).default("debug"). -/
def parseLogLevel (v : Option String) : Except ConfigurationError String :=
  match v with
  | none => Except.ok "debug"
  | some s =>
    if logLevels.contains s then Except.ok s
    else Except.error ⟨"LOG_LEVEL"⟩

/-- A boolean option: z.coerce.boolean().default(true). Never fails. -/
def parseBoolField (v : Option String) : Bool :=
  match v with
  | none => true
  | some s => coerceBoolean s

/-- A string option: z.coerce.string().default(d). Never fails. -/
def parseStrField (d : String) (v : Option String) : String :=
  match v with
  | none => d
  | some s => s

/-- EnvFileSchema.parse over the recognized options (the spec's
loadConfig): each field is defaulted when absent and coerced when
present; the two fallible fields are PORT (Number coercion) and
LOG_LEVEL (enum membership). zod reports every issue at once; here
failures short-circuit, which preserves the failure/success split.
The result type makes a partially populated configuration impossible. -/
def loadConfig (env : RawEnv) : Except ConfigurationError EnvConfig :=
  match parsePort env.PORT with
  | Except.error e => Except.error e
  | Except.ok port =>
    match parseLogLevel env.LOG_LEVEL with
    | Except.error e => Except.error e
    | Except.ok lvl =>
      Except.ok
        { PORT := port
          CORS_ENABLED := parseBoolField env.CORS_ENABLED
          COMPRESSION_ENABLED := parseBoolField env.COMPRESSION_ENABLED
          UPLOAD_ENABLED := parseBoolField env.UPLOAD_ENABLED
          LOG_LEVEL := lvl
          LOG_COLORED := parseBoolField env.LOG_COLORED
          GENERATE_CLIENT := parseBoolField env.GENERATE_CLIENT
          GENERATE_API_DOCS := parseBoolField env.GENERATE_API_DOCS
          API_VERSION := parseStrField "0.0.1" env.API_VERSION
          API_TITLE := parseStrField "my-api" env.API_TITLE
          API_SERVER_URL :=
            parseStrField "http://localhost:8090/v1" env.API_SERVER_URL }

/-- An environment with every recognized option absent. -/
def emptyRawEnv : RawEnv :=
  ⟨none, none, none, none, none, none, none, none, none, none, none⟩

/-- The spec's words for the failure condition of loadConfig: some
present value cannot be coerced to its declared type. Booleans and
strings coerce from every string, so only PORT (Number yielding NaN) and
LOG_LEVEL (not an enum member) can fail. -/
def hasUncoercibleValue (env : RawEnv) : Prop :=
  (∃ s, env.PORT = some s ∧ coerceNumber s = JsNumber.nan) ∨
  (∃ s, env.LOG_LEVEL = some s ∧ logLevels.contains s = false)

/-- Environment.parse(process.env.NODE_ENV) with
Environment = z.enum(["production", "development"]): an absent NODE_ENV
is undefined and rejected by the enum like any non-member string. -/
def parseEnvironment (v : Option String) :
    Except ConfigurationError String :=
  match v with
  | none => Except.error ⟨"NODE_ENV"⟩
  | some s =>
    if s = "production" || s = "development" then Except.ok s
    else Except.error ⟨"NODE_ENV"⟩

/-- The two endpoints registered in the routing table. -/
inductive EndpointId where
  | getUser
  | updateUser
deriving DecidableEq, Repr

/-- A routing-table node: either a per-method dispatch map
(DependsOnMethod) or an inner node whose keys are path segments, a key
starting with a colon being a path-parameter placeholder. -/
inductive RouteNode where
  | methods (ms : List (String × EndpointId))
  | tree (children : List (String × RouteNode))

/-- The routing table of the repository:
v1 / user / :id with a DependsOnMethod holding only get and post. -/
def routing : RouteNode :=
  RouteNode.tree
    [("v1", RouteNode.tree
      [("user", RouteNode.tree
        [(":id", RouteNode.methods
          [("get", EndpointId.getUser),
           ("post", EndpointId.updateUser)])])])]

/-- Outcome of routing resolution. -/
inductive Resolution where
  | found (e : EndpointId)
  | notFound
  | methodNotAllowed
deriving DecidableEq, Repr

/-- A routing key is a path-parameter placeholder iff it starts with a
colon, as in the source's ":id". -/
def isParamKey (k : String) : Bool :=
  match k.data with
  | ':' :: _ => true
  | _ => false

/-- Modelled from the spec: routing resolution lives in the
express-zod-api library, not under src. Per spec section 4.5 and the
repository's routing instructions: segments are matched literal-first,
then against a parameter placeholder; a path that reaches a
DependsOnMethod map with all segments consumed resolves through that
map, a missing method there being method-not-allowed (405); every other
miss is not-found (404). -/
def resolveSeg (m : String) : List String → RouteNode → Resolution
  | [], RouteNode.methods ms =>
    (match ms.lookup m with
     | some e => Resolution.found e
     | none => Resolution.methodNotAllowed)
  | _ :: _, RouteNode.methods _ => Resolution.notFound
  | [], RouteNode.tree _ => Resolution.notFound
  | seg :: rest, RouteNode.tree children =>
    (match children.find? (fun c => c.fst = seg) with
     | some c => resolveSeg m rest c.snd
     | none =>
       match children.find? (fun c => isParamKey c.fst) with
       | some c => resolveSeg m rest c.snd
       | none => Resolution.notFound)

/-- The spec's resolve(path, method) over a routing-table node. -/
def resolve (node : RouteNode) (path : List String) (m : String) :
    Resolution :=
  resolveSeg m path node

/-- The set of paths the repository's routing table declares: exactly
the three-segment paths v1 / user / anything. -/
def pathMatchesRouting (path : List String) : Bool :=
  match path with
  | [a, b, _] => a = "v1" && b = "user"
  | _ => false

/-- parsePort fails exactly on a present value whose Number coercion is
NaN. -/
theorem parsePort_error_iff (v : Option String) :
    (∃ e, parsePort v = Except.error e) ↔
      ∃ s, v = some s ∧ coerceNumber s = JsNumber.nan := by
  cases v with
  | none =>
    simp [parsePort]
  | some s =>
    cases hc : coerceNumber s with
    | nan => simp [parsePort, hc]
    | finite q => simp [parsePort, hc]
    | infinite b => simp [parsePort, hc]

/-- parseLogLevel fails exactly on a present value outside the enum. -/
theorem parseLogLevel_error_iff (v : Option String) :
    (∃ e, parseLogLevel v = Except.error e) ↔
      ∃ s, v = some s ∧ logLevels.contains s = false := by
  cases v with
  | none =>
    simp [parseLogLevel]
  | some s =>
    cases hc : logLevels.contains s with
    | true =>
      have hok : parseLogLevel (some s) = Except.ok s := by
        show (if logLevels.contains s = true then Except.ok s
          else (Except.error ⟨"LOG_LEVEL"⟩ :
            Except ConfigurationError String)) = Except.ok s
        rw [hc]
        simp
      constructor
      · rintro ⟨e, he⟩
        rw [hok] at he
        simp at he
      · rintro ⟨t, ht, hf⟩
        injection ht with ht
        subst ht
        rw [hc] at hf
        simp at hf
    | false =>
      have herr : parseLogLevel (some s) =
          Except.error ⟨"LOG_LEVEL"⟩ := by
        show (if logLevels.contains s = true then Except.ok s
          else (Except.error ⟨"LOG_LEVEL"⟩ :
            Except ConfigurationError String)) =
          Except.error ⟨"LOG_LEVEL"⟩
        rw [hc]
        simp
      constructor
      · intro _
        exact ⟨s, rfl, hc⟩
      · intro _
        exact ⟨⟨"LOG_LEVEL"⟩, herr⟩

/-- Claim C1 (counterexample): the object returned by the safe wrappers
has no property named value on the ok branch and no property named error
on the failure branch; both branches carry their payload under the
declared property data. -/
theorem safe_value_field_counterexample :
    lookupField ((safe (Except.ok "payload")).toObj) "value" = none ∧
    lookupField ((safe (Except.ok "payload")).toObj) "data" =
      some (JsPrim.jsStr "payload") ∧
    lookupField ((safeAsync (Except.error "boom" : Except String String)).toObj)
      "error" = none ∧
    lookupField ((safeAsync (Except.error "boom" : Except String String)).toObj)
      "data" = some (JsPrim.jsStr "boom") :=
  ⟨rfl, rfl, rfl, rfl⟩

/-- Claim C1 (amended): for every fn passed to safe or safeAsync, a
normal return with result v yields the ok-tagged record carrying v in
its data field, and a failure with description s yields the
false-tagged record carrying s in its data field; both wrappers are
total, so nothing is re-thrown past their boundary. -/
theorem safe_contract (T : Type) (fn : Except String T) :
    (∀ v, fn = Except.ok v →
      safe fn = ⟨true, Sum.inl v⟩ ∧ safeAsync fn = ⟨true, Sum.inl v⟩) ∧
    (∀ e, fn = Except.error e →
      safe fn = ⟨false, Sum.inr e⟩ ∧ safeAsync fn = ⟨false, Sum.inr e⟩) := by
  constructor
  · intro v hv
    subst hv
    exact ⟨rfl, rfl⟩
  · intro e he
    subst he
    exact ⟨rfl, rfl⟩

/-- Witness for safe_contract at concrete inputs. -/
theorem safe_contract_witness :
    safe (Except.ok (3 : Int)) = ⟨true, Sum.inl 3⟩ ∧
    safeAsync (Except.error "boom" : Except String Int) =
      ⟨false, Sum.inr "boom"⟩ :=
  ⟨((safe_contract Int (Except.ok 3)).1 3 rfl).1,
   ((safe_contract Int (Except.error "boom")).2 "boom" rfl).2⟩

/-- Claim C2 (counterexample): the raw id value 12abc is not a
digit-only string yet it passes the unanchored /\d+/ check of the input
schema, parseInt truncates it to 12, and that truncated integer reaches
the handler, which answers 200 for user 12. -/
theorem digit_only_id_counterexample :
    digitOnlyStr "12abc" = false ∧
    parseIdField "12abc" = Except.ok (some 12) ∧
    processGetUser "12abc" (Except.ok ()) =
      EndpointResult.success 200 ⟨"Querying User 12 succeed!"⟩ :=
  ⟨rfl, rfl, rfl⟩

/-- Claim C2 (amended): a raw id value is accepted iff its trimmed form
contains at least one digit; any other value yields a 400 ValidationError
on field id and the handler is never invoked (the outcome is the same for
every handler); an accepted value reaches the handler as parseInt of its
trimmed form, which truncates a partially numeric string. -/
theorem id_validation_contract (raw : String)
    (h : JsNum → Except HttpError GetUserOutput) :
    (testDigitRegex (jsTrim raw) = false →
      processGetUserWith h raw = EndpointResult.validationError "id" ∧
      statusOf (processGetUserWith h raw) = 400) ∧
    (testDigitRegex (jsTrim raw) = true →
      parseIdField raw = Except.ok (parseIntJs (jsTrim raw))) := by
  constructor
  · intro hf
    have hp : parseIdField raw =
        (Except.error ⟨"id"⟩ : Except ValidationError JsNum) := by
      show (if testDigitRegex (jsTrim raw) = true then
        Except.ok (parseIntJs (jsTrim raw))
        else (Except.error ⟨"id"⟩ : Except ValidationError JsNum)) =
        (Except.error ⟨"id"⟩ : Except ValidationError JsNum)
      rw [hf]
      simp
    constructor
    · unfold processGetUserWith
      rw [hp]
    · unfold processGetUserWith
      rw [hp]
      rfl
  · intro ht
    show (if testDigitRegex (jsTrim raw) = true then
      Except.ok (parseIntJs (jsTrim raw))
      else (Except.error ⟨"id"⟩ : Except ValidationError JsNum)) =
      Except.ok (parseIntJs (jsTrim raw))
    rw [ht]
    simp

/-- Witness for id_validation_contract at concrete inputs. -/
theorem id_validation_contract_witness :
    processGetUserWith (fun _ => Except.error ⟨500, "unused"⟩) "xyz" =
      EndpointResult.validationError "id" ∧
    parseIdField " 42 " = Except.ok (parseIntJs (jsTrim " 42 ")) :=
  ⟨((id_validation_contract "xyz" (fun _ => Except.error ⟨500, "unused"⟩)).1
      rfl).1,
   (id_validation_contract " 42 " (fun _ => Except.error ⟨500, "unused"⟩)).2
      rfl⟩

/-- Claim C3: loadConfig fails exactly when some present recognized value
cannot be coerced to its declared type, meaning Number(PORT) is NaN or
LOG_LEVEL is outside the enum (boolean and string coercions accept every
string); every absent option falls back to its declared default; the
result type rules out a partially populated configuration; and the
Number()-accepted literal forms — fractional, exponent, hexadecimal and
Infinity — coerce successfully rather than failing. -/
theorem loadConfig_contract :
    (∀ env : RawEnv,
      (∃ e, loadConfig env = Except.error e) ↔ hasUncoercibleValue env) ∧
    loadConfig emptyRawEnv =
      Except.ok ⟨JsNumber.finite 8090, true, true, true, "debug", true,
        true, true, "0.0.1", "my-api", "http://localhost:8090/v1"⟩ ∧
    coerceNumber "1.5" = JsNumber.finite (3 / 2) ∧
    coerceNumber "1e3" = JsNumber.finite 1000 ∧
    coerceNumber "0x10" = JsNumber.finite 16 ∧
    coerceNumber "Infinity" = JsNumber.infinite false ∧
    coerceNumber "abc" = JsNumber.nan := by
  refine ⟨?_, rfl, ?_, ?_, rfl, rfl, rfl⟩
  · intro env
    unfold hasUncoercibleValue
    rw [← parsePort_error_iff, ← parseLogLevel_error_iff]
    unfold loadConfig
    cases hp : parsePort env.PORT with
    | error e => simp [hp]
    | ok port =>
      cases hl : parseLogLevel env.LOG_LEVEL with
      | error e => simp [hp, hl]
      | ok lvl => simp [hp, hl]
  · have h : coerceNumber "1.5" =
        JsNumber.finite ((1 : ℚ) + (5 : ℚ) / (10 : ℚ) ^ (1 : ℕ)) := rfl
    rw [h]
    norm_num
  · have h : coerceNumber "1e3" =
        JsNumber.finite
          (((1 : ℚ) + (0 : ℚ) / (10 : ℚ) ^ (0 : ℕ)) * (10 : ℚ) ^ (3 : ℤ)) :=
      rfl
    rw [h]
    norm_num

/-- Witness for loadConfig_contract: an uncoercible PORT value makes
loadConfig fail. -/
theorem loadConfig_contract_witness :
    ∃ e, loadConfig
      ⟨some "abc", none, none, none, none, none, none, none, none, none,
        none⟩ = Except.error e :=
  (loadConfig_contract.1
    ⟨some "abc", none, none, none, none, none, none, none, none, none,
      none⟩).mpr (Or.inl ⟨"abc", rfl, rfl⟩)

/-- Claim C4: for every (path, method) pair, a path the routing table
does not declare resolves to not-found, and a declared path with a
method outside the get/post map of its DependsOnMethod entry resolves
to method-not-allowed, never to not-found. -/
theorem routing_resolution_contract (path : List String) (m : String) :
    (pathMatchesRouting path = false →
      resolve routing path m = Resolution.notFound) ∧
    (pathMatchesRouting path = true → m ≠ "get" → m ≠ "post" →
      resolve routing path m = Resolution.methodNotAllowed) := by
  rcases path with _ | ⟨a, _ | ⟨b, _ | ⟨c, _ | ⟨d, rest⟩⟩⟩⟩
  · exact ⟨fun _ => rfl, fun hm => by simp [pathMatchesRouting] at hm⟩
  · refine ⟨fun _ => ?_, fun hm => by simp [pathMatchesRouting] at hm⟩
    by_cases ha : a = "v1"
    · subst ha
      rfl
    · simp [resolve, resolveSeg, routing, List.find?, isParamKey,
        Ne.symm ha]
  · refine ⟨fun _ => ?_, fun hm => by simp [pathMatchesRouting] at hm⟩
    by_cases ha : a = "v1"
    · subst ha
      by_cases hb : b = "user"
      · subst hb
        rfl
      · simp [resolve, resolveSeg, routing, List.find?, isParamKey,
          Ne.symm hb]
    · simp [resolve, resolveSeg, routing, List.find?, isParamKey,
        Ne.symm ha]
  · constructor
    · intro hm
      simp only [pathMatchesRouting, Bool.and_eq_false_iff,
        decide_eq_false_iff_not] at hm
      by_cases ha : a = "v1"
      · subst ha
        have hb : ¬ b = "user" := by
          rcases hm with hm | hm
          · exact absurd rfl hm
          · exact hm
        simp [resolve, resolveSeg, routing, List.find?, isParamKey,
          Ne.symm hb]
      · simp [resolve, resolveSeg, routing, List.find?, isParamKey,
          Ne.symm ha]
    · intro hm hg hp
      simp only [pathMatchesRouting, Bool.and_eq_true,
        decide_eq_true_eq] at hm
      obtain ⟨ha, hb⟩ := hm
      subst ha
      subst hb
      have hg2 : (m == "get") = false := by simp [hg]
      have hp2 : (m == "post") = false := by simp [hp]
      by_cases hc : c = ":id"
      · subst hc
        simp [resolve, resolveSeg, routing, List.find?, List.lookup,
          isParamKey, hg2, hp2]
      · simp [resolve, resolveSeg, routing, List.find?, List.lookup,
          isParamKey, Ne.symm hc, hg2, hp2]
  · refine ⟨fun _ => ?_, fun hm => by simp [pathMatchesRouting] at hm⟩
    by_cases ha : a = "v1"
    · subst ha
      by_cases hb : b = "user"
      · subst hb
        by_cases hc : c = ":id"
        · subst hc
          rfl
        · simp [resolve, resolveSeg, routing, List.find?, isParamKey,
            Ne.symm hc]
      · simp [resolve, resolveSeg, routing, List.find?, isParamKey,
          Ne.symm hb]
    · simp [resolve, resolveSeg, routing, List.find?, isParamKey,
        Ne.symm ha]

/-- Witness for routing_resolution_contract: an undeclared path is 404
and a declared path with the unregistered put method is 405. -/
theorem routing_resolution_contract_witness :
    resolve routing ["health"] "get" = Resolution.notFound ∧
    resolve routing ["v1", "user", "12"] "put" =
      Resolution.methodNotAllowed :=
  ⟨(routing_resolution_contract ["health"] "get").1 rfl,
   (routing_resolution_contract ["v1", "user", "12"] "put").2 rfl
     (by decide) (by decide)⟩

/-- Claim C5: whenever the raw id satisfies the input schema, the
handler is run on exactly the transformed value the schema produced (for
any handler), and the raw path value 12 is transformed to the integer
12. -/
theorem handler_receives_transformed_value :
    (∀ (raw : String) (id : JsNum)
      (h : JsNum → Except HttpError GetUserOutput),
      parseIdField raw = Except.ok id →
      processGetUserWith h raw = resultOfHandler (h id)) ∧
    parseIdField "12" = Except.ok (some 12) := by
  constructor
  · intro raw id h hp
    unfold processGetUserWith
    rw [hp]
  · rfl

/-- Witness for handler_receives_transformed_value: a handler echoing
its input shows that the raw value 12 arrives as the integer 12. -/
theorem handler_receives_transformed_value_witness :
    processGetUserWith (fun j => Except.ok ⟨jsNumToString j⟩) "12" =
      EndpointResult.success 200 ⟨"12"⟩ :=
  handler_receives_transformed_value.1 "12" (some 12)
    (fun j => Except.ok ⟨jsNumToString j⟩) rfl

/-- Claim C6: any valid digit-string id whose integer value exceeds 100
makes getUserEndpoint answer a 404 error with message User not found,
regardless of the wrapped operation's outcome; the success path is not
taken. -/
theorem get_user_over_threshold_not_found (raw : String) (n : Int)
    (fault : Except String Unit) :
    parseIdField raw = Except.ok (some n) → 100 < n →
    processGetUser raw fault =
      EndpointResult.httpError 404 "User not found" := by
  intro hp hn
  have h1 : processGetUser raw fault =
      resultOfHandler (getUserHandler (some n) fault) := by
    unfold processGetUser processGetUserWith
    rw [hp]
  rw [h1]
  have hgt : jsGt (some n) 100 = true := by
    show decide (100 < n) = true
    exact decide_eq_true hn
  unfold getUserHandler
  rw [hgt]
  rfl

/-- Witness for get_user_over_threshold_not_found at GET /v1/user/150. -/
theorem get_user_over_threshold_not_found_witness :
    processGetUser "150" (Except.ok ()) =
      EndpointResult.httpError 404 "User not found" :=
  get_user_over_threshold_not_found "150" 150 (Except.ok ()) rfl
    (by decide)

/-- Claim C7: for any input whose id does not exceed the 100 threshold
the update handler raises the 500 error Not implemented yet!, the
handler never returns a success value for any input at all, and the full
pipeline on id 12 with body name John Doe answers that 500 error. -/
theorem update_user_never_succeeds :
    (∀ (id : JsNum) (name : String), jsGt id 100 = false →
      updateUserHandler id name =
        Except.error ⟨500, "Not implemented yet!"⟩) ∧
    (∀ (id : JsNum) (name : String), ∃ st msg,
      updateUserHandler id name = Except.error ⟨st, msg⟩) ∧
    processUpdateUser "12" "John Doe" =
      EndpointResult.httpError 500 "Not implemented yet!" := by
  refine ⟨?_, ?_, rfl⟩
  · intro id name hle
    unfold updateUserHandler
    rw [hle]
    rfl
  · intro id name
    cases hgt : jsGt id 100 with
    | true =>
      refine ⟨404, "User not found", ?_⟩
      unfold updateUserHandler
      rw [hgt]
      rfl
    | false =>
      refine ⟨500, "Not implemented yet!", ?_⟩
      unfold updateUserHandler
      rw [hgt]
      rfl

/-- Witness for update_user_never_succeeds at id 12, name John Doe. -/
theorem update_user_never_succeeds_witness :
    updateUserHandler (some 12) "John Doe" =
      Except.error ⟨500, "Not implemented yet!"⟩ :=
  update_user_never_succeeds.1 (some 12) "John Doe" rfl

/-- Claim C8: GET /v1/user/12 with no fault in the wrapped optional
operation answers status 200 with body demoData Querying User 12
succeed!. -/
theorem get_user_success_scenario :
    processGetUser "12" (Except.ok ()) =
      EndpointResult.success 200 ⟨"Querying User 12 succeed!"⟩ ∧
    statusOf (processGetUser "12" (Except.ok ())) = 200 :=
  ⟨rfl, rfl⟩

/-- Claim C9: Environment.parse accepts NODE_ENV exactly when it is the
string production or the string development; any other value, absent or
the string test included, is rejected at startup. -/
theorem environment_selection_contract :
    (∀ v : Option String,
      (∃ s, parseEnvironment v = Except.ok s) ↔
        (v = some "production" ∨ v = some "development")) ∧
    parseEnvironment (some "test") = Except.error ⟨"NODE_ENV"⟩ ∧
    parseEnvironment none = Except.error ⟨"NODE_ENV"⟩ := by
  refine ⟨?_, rfl, rfl⟩
  intro v
  cases v with
  | none =>
    constructor
    · rintro ⟨s, hs⟩
      simp [parseEnvironment] at hs
    · rintro (h | h) <;> cases h
  | some s =>
    constructor
    · rintro ⟨t, ht⟩
      by_cases hp : s = "production"
      · exact Or.inl (by rw [hp])
      · by_cases hd : s = "development"
        · exact Or.inr (by rw [hd])
        · have : parseEnvironment (some s) =
              Except.error ⟨"NODE_ENV"⟩ := by
            show (if (s = "production" || s = "development" : Bool) then
              Except.ok s
              else (Except.error ⟨"NODE_ENV"⟩ :
                Except ConfigurationError String)) =
              Except.error ⟨"NODE_ENV"⟩
            simp [hp, hd]
          rw [this] at ht
          simp at ht
    · rintro (h | h)
      · injection h with h
        subst h
        exact ⟨"production", rfl⟩
      · injection h with h
        subst h
        exact ⟨"development", rfl⟩

/-- Witness for environment_selection_contract: production is accepted. -/
theorem environment_selection_contract_witness :
    ∃ s, parseEnvironment (some "production") = Except.ok s :=
  (environment_selection_contract.1 (some "production")).mpr (Or.inl rfl)

/-- Claim C10: when the wrapped optional operation faults with message e
and the id is within the threshold, getUserEndpoint still answers status
200, with demoData reporting the failure text; the fault is never
surfaced as an error envelope. -/
theorem safe_fault_isolated (raw : String) (n : Int) (e : String) :
    parseIdField raw = Except.ok (some n) → jsGt (some n) 100 = false →
    processGetUser raw (Except.error e) =
      EndpointResult.success 200
        ⟨"Querying User " ++ jsNumToString (some n) ++
          " failed safely: " ++ e⟩ := by
  intro hp hle
  have h1 : processGetUser raw (Except.error e) =
      resultOfHandler (getUserHandler (some n) (Except.error e)) := by
    unfold processGetUser processGetUserWith
    rw [hp]
  rw [h1]
  unfold getUserHandler
  rw [hle]
  rfl

/-- Witness for safe_fault_isolated at GET /v1/user/12 with fault boom. -/
theorem safe_fault_isolated_witness :
    processGetUser "12" (Except.error "boom") =
      EndpointResult.success 200
        ⟨"Querying User 12 failed safely: boom"⟩ :=
  safe_fault_isolated "12" 12 "boom" rfl rfl

end EZA
